import Mathlib

/-!
Verification development for the homework-status polling bot
(`homework.py`).  The Python source is shallowly embedded: JSON-like
Python values become the inductive type `JSON`, each function of the
source becomes a Lean function of the same name, exceptions become an
error type `HwError` carried in `Except`, and the `main` polling loop
becomes an explicit step function `loop_iter` over `PollState` driven
by per-iteration oracle inputs (HTTP outcome, wall clock, delivery
outcomes).  Observable effects (HTTP requests, message deliveries) are
recorded as an explicit `Event` trace.
-/

set_option maxHeartbeats 1000000

/-- JSON-like Python values exchanged with the API: `None`, integers,
strings, lists and dicts (dicts as association lists with string keys,
first binding wins on lookup). -/
inductive JSON where
  | null : JSON
  | int (n : Int) : JSON
  | str (s : String) : JSON
  | list (xs : List JSON) : JSON
  | obj (fs : List (String × JSON)) : JSON

mutual

/-- Structural equality of values, Python `==` on JSON data. -/
def JSON.beq : JSON → JSON → Bool
  | .null, .null => true
  | .int m, .int n => m == n
  | .str s, .str t => s == t
  | .list xs, .list ys => JSON.beqList xs ys
  | .obj fs, .obj gs => JSON.beqObj fs gs
  | _, _ => false

/-- Elementwise equality of value lists. -/
def JSON.beqList : List JSON → List JSON → Bool
  | [], [] => true
  | x :: xs, y :: ys => JSON.beq x y && JSON.beqList xs ys
  | _, _ => false

/-- Bindingwise equality of dict entry lists. -/
def JSON.beqObj : List (String × JSON) → List (String × JSON) → Bool
  | [], [] => true
  | (k, v) :: fs, (l, w) :: gs => k == l && JSON.beq v w && JSON.beqObj fs gs
  | _, _ => false

end

instance : BEq JSON := ⟨JSON.beq⟩

/-- Python type name of a value, as used in runtime error messages. -/
def pyTypeName : JSON → String
  | .null => "NoneType"
  | .int _ => "int"
  | .str _ => "str"
  | .list _ => "list"
  | .obj _ => "dict"

/-- Python truthiness of a value (`if homeworks:`, `x or y`). -/
def pyTruthy : JSON → Bool
  | .null => false
  | .int n => n != 0
  | .str s => !s.isEmpty
  | .list xs => !xs.isEmpty
  | .obj fs => !fs.isEmpty

/-- Python `x or y` (returns the first operand when truthy). -/
def pyOr (x y : JSON) : JSON :=
  if pyTruthy x then x else y

/-- Dict key membership (`'k' in d` for a dict `d`). -/
def hasKey (fs : List (String × JSON)) (k : String) : Bool :=
  (List.lookup k fs).isSome

/-- Dict `d.get(k)`: the bound value, or `None` when the key is absent. -/
def dictGet (fs : List (String × JSON)) (k : String) : JSON :=
  match List.lookup k fs with
  | some v => v
  | none => .null

/-- Exceptions the source can raise, by Python class, with the message
the class was constructed with.  `tokenError` is the custom
`exceptions.TokenError`. -/
inductive HwError where
  | typeError (msg : String) : HwError
  | keyError (msg : String) : HwError
  | requestException (msg : String) : HwError
  | jsonDecodeError (msg : String) : HwError
  | telegramError (msg : String) : HwError
  | attributeError (msg : String) : HwError
  | tokenError (msg : String) : HwError
deriving DecidableEq

/-- Python `str(error)`, as interpolated by `f'Сбой в работе программы:
{error}'`.  `str` of a `KeyError` is the `repr` of its argument, hence
the extra quotes. -/
def HwError.description : HwError → String
  | .typeError m => m
  | .keyError m => "\x27" ++ m ++ "\x27"
  | .requestException m => m
  | .jsonDecodeError m => m
  | .telegramError m => m
  | .attributeError m => m
  | .tokenError m => m

/-- Does `needle` occur as a contiguous run inside `hay`?  Backs the
Python substring test `key in s`. -/
def infixCheck (needle : List Char) : List Char → Bool
  | [] => needle.isEmpty
  | c :: rest => List.isPrefixOf needle (c :: rest) || infixCheck needle rest

/-- Python `key in container` for a string literal key: key membership
for dicts, element membership for lists, substring test for strings,
`TypeError` otherwise. -/
def pyContains (container : JSON) (key : String) : Except HwError Bool :=
  match container with
  | .obj fs => .ok (hasKey fs key)
  | .list xs => .ok (xs.any (fun x => x == JSON.str key))
  | .str s => .ok (infixCheck key.toList s.toList)
  | .int _ => .error (.typeError "argument of type \x27int\x27 is not iterable")
  | .null => .error (.typeError "argument of type \x27NoneType\x27 is not iterable")

/-- Python `v.get(k)`: only dicts have the `get` attribute; anything
else raises `AttributeError`. -/
def pyGetAttr (v : JSON) (k : String) : Except HwError JSON :=
  match v with
  | .obj fs => .ok (dictGet fs k)
  | _ => .error (.attributeError
      ("\x27" ++ pyTypeName v ++ "\x27 object has no attribute \x27get\x27"))

/-- Verdict table `HOMEWORK_STATUSES` from the source. -/
def HOMEWORK_STATUSES : List (String × String) :=
  [("approved", "Работа проверена: ревьюеру всё понравилось. Ура!"),
   ("reviewing", "Работа взята на проверку ревьюером."),
   ("rejected", "Работа проверена: у ревьюера есть замечания.")]

/-- Message of the `TypeError` raised when the response is not a dict. -/
def msgNotDict : String :=
  "Ответ API некорректен: ответ API не является словарем"

/-- Message of the `KeyError` raised when a required key is absent.  The
source concatenates two adjacent string literals with no separating
space, which this string reproduces. -/
def msgMissingKeys : String :=
  "Ответ API некорректен: «current_date» и «homeworks»не найдены в наборе существующих ключей"

/-- Message of the `TypeError` raised when `homeworks` is not a list. -/
def msgHomeworksShape : String :=
  "Ответ API некорректен: по ключу «homeworks»"

/-- Message of the `KeyError` raised when `homework_name` is absent. -/
def msgNoHomework : String := "Такой домашней работы нет в системе"

/-- Message of the `KeyError` raised on an unknown status. -/
def msgNoStatus : String := "Такого статуса не существует"

/-- Is the value a Python dict (`isinstance(response, dict)`)? -/
def isDict : JSON → Bool
  | .obj _ => true
  | _ => false

/-- Is the value a Python list (`isinstance(x, list)`)? -/
def isList : JSON → Bool
  | .list _ => true
  | _ => false

/-- Embedding of `check_response` (homework.py lines 75–102): reject a
non-dict response, then a response missing `current_date` or
`homeworks`, then a non-list `homeworks` value; otherwise return the
`homeworks` list unchanged. -/
def check_response (response : JSON) : Except HwError (List JSON) :=
  match response with
  | .obj fs =>
    if !(hasKey fs "current_date") || !(hasKey fs "homeworks") then
      .error (.keyError msgMissingKeys)
    else
      match dictGet fs "homeworks" with
      | .list hs => .ok hs
      | _ => .error (.typeError msgHomeworksShape)
  | _ => .error (.typeError msgNotDict)

/-- Membership test `homework.get('status') not in HOMEWORK_STATUSES`:
dict membership hashes the key, so unhashable values raise
`TypeError`; hashable non-string values are simply not present. -/
def statusIn (v : JSON) : Except HwError Bool :=
  match v with
  | .str s => .ok (HOMEWORK_STATUSES.any (fun p => p.1 == s))
  | .int _ => .ok false
  | .null => .ok false
  | .list _ => .error (.typeError "unhashable type: \x27list\x27")
  | .obj _ => .error (.typeError "unhashable type: \x27dict\x27")

/-- Subscript `HOMEWORK_STATUSES[k]`: the bound verdict, `KeyError` on
an absent hashable key, `TypeError` on an unhashable one. -/
def statusVerdict (v : JSON) : Except HwError String :=
  match v with
  | .str s =>
    match List.lookup s HOMEWORK_STATUSES with
    | some verdict => .ok verdict
    | none => .error (.keyError s)
  | .int n => .error (.keyError (toString n))
  | .null => .error (.keyError "None")
  | .list _ => .error (.typeError "unhashable type: \x27list\x27")
  | .obj _ => .error (.typeError "unhashable type: \x27dict\x27")

/-- Python `str(v)` as interpolated into an f-string: strings verbatim,
`None` and numbers by their textual form; containers are rendered
structurally (only the non-container cases are reachable through the
claims below). -/
def pyStr (v : JSON) : String :=
  match v with
  | .str s => s
  | .int n => toString n
  | .null => "None"
  | .list _ => "[...]"
  | .obj _ => "\x7b...\x7d"

/-- Embedding of `parse_status` (homework.py lines 105–117): require
`homework_name`, require a known `status`, and format the notification
string from the name and the verdict. -/
def parse_status (homework : JSON) : Except HwError String := do
  let has ← pyContains homework "homework_name"
  if !has then
    throw (.keyError msgNoHomework)
  let homework_name ← pyGetAttr homework "homework_name"
  let status ← pyGetAttr homework "status"
  let inTable ← statusIn status
  if !inTable then
    throw (.keyError msgNoStatus)
  let verdict ← statusVerdict status
  return "Изменился статус проверки работы \"" ++ pyStr homework_name ++ "\". " ++ verdict

/-- Outcome of one HTTP request attempt: the transport raised
(`requests.exceptions.RequestException`), or a reply arrived with a
status code and a body whose JSON decoding either succeeded or
failed. -/
inductive HttpOutcome where
  | netFail (msg : String) : HttpOutcome
  | reply (status : Nat) (body : Except String JSON) : HttpOutcome

/-- Timestamp actually sent as the `from_date` parameter:
`current_timestamp or int(time.time())`, using Python truthiness (so
`None`, `0` and empty values fall back to the wall clock `now`). -/
def requestTimestamp (current_timestamp : JSON) (now : Int) : JSON :=
  pyOr current_timestamp (.int now)

/-- Embedding of `get_api_answer` (homework.py lines 46–72): re-raise a
transport failure; on a 200 reply return the decoded JSON body or
re-raise the decode error; on any other status raise a
`RequestException` naming the status code.  The function performs a
single request and never retries. -/
def get_api_answer (current_timestamp : JSON) (now : Int)
    (outcome : HttpOutcome) : Except HwError JSON :=
  let _ := requestTimestamp current_timestamp now
  match outcome with
  | .netFail msg => .error (.requestException msg)
  | .reply status body =>
    if status == 200 then
      match body with
      | .ok v => .ok v
      | .error msg => .error (.jsonDecodeError msg)
    else
      .error (.requestException ("Запрос не удался: код ошибки " ++ toString status))

/-- Fixed message sent when the date range holds no homework. -/
def noHomeworkMessage : String := "В указанные даты домашних заданий не найдено"

/-- Header prepended to an error description by the loop's `except`
branch. -/
def failureHeader : String := "Сбой в работе программы: "

/-- Derived notification message for a homework list, as computed by
the loop body: the fixed text on an empty list (Python falsiness of
`homeworks`), otherwise `parse_status` of the first element. -/
def messageOf (homeworks : List JSON) : Except HwError String :=
  match homeworks with
  | [] => .ok noHomeworkMessage
  | h :: _ => parse_status h

/-- Mutable loop state of `main`: the `from_date` filter value (an
arbitrary Python value, since `response.get('current_date')` is stored
unchecked) and the last successfully delivered message. -/
structure PollState where
  current_timestamp : JSON
  sent_message : Option String

/-- Externally observable actions of one run: HTTP requests with their
`from_date` value, and message delivery attempts. -/
inductive Event where
  | fetch (from_date : JSON) : Event
  | send (message : String) : Event

/-- Count of delivery attempts in a trace. -/
def sendCount (evs : List Event) : Nat :=
  (evs.filter (fun e => match e with | .send _ => true | _ => false)).length

/-- Oracle input consumed by one loop iteration: the HTTP outcome, the
wall clock, and the outcome of each delivery attempt made during the
iteration (`none` = delivered, `some msg` = `telegram.TelegramError`
with that message), indexed by attempt number within the iteration. -/
structure IterInput where
  outcome : HttpOutcome
  now : Int
  sendR : Nat → Option String

/-- Result of the `try` part of one iteration of `main`'s loop (lines
140–161): updated state, events, number of delivery attempts made, and
the exception that escaped the block, if any. -/
structure TryResult where
  state : PollState
  events : List Event
  attempts : Nat
  err : Option HwError

/-- The `try` block of one loop iteration: fetch, store
`response.get('current_date')`, validate, derive the message, and send
it unless it repeats `sent_message`.  `sent_message` is updated only
after a successful delivery. -/
def runTry (st : PollState) (inp : IterInput) : TryResult :=
  let ev0 : List Event := [.fetch (requestTimestamp st.current_timestamp inp.now)]
  match get_api_answer st.current_timestamp inp.now inp.outcome with
  | .error e => ⟨st, ev0, 0, some e⟩
  | .ok response =>
    match pyGetAttr response "current_date" with
    | .error e => ⟨st, ev0, 0, some e⟩
    | .ok cd =>
      match check_response response with
      | .error e => ⟨⟨cd, st.sent_message⟩, ev0, 0, some e⟩
      | .ok homeworks =>
        match messageOf homeworks with
        | .error e => ⟨⟨cd, st.sent_message⟩, ev0, 0, some e⟩
        | .ok message =>
          if some message ≠ st.sent_message then
            match inp.sendR 0 with
            | none => ⟨⟨cd, some message⟩, ev0 ++ [.send message], 1, none⟩
            | some cause =>
              ⟨⟨cd, st.sent_message⟩, ev0 ++ [.send message], 1,
               some (.telegramError cause)⟩
          else
            ⟨⟨cd, st.sent_message⟩, ev0, 0, none⟩

/-- How one iteration ended: the `try` block completed, the `except`
branch caught an error and delivered the failure notice, or that
delivery itself raised and the exception escaped the loop. -/
inductive IterOutcome where
  | ok : IterOutcome
  | caught : IterOutcome
  | crashed (e : HwError) : IterOutcome

/-- Result of one full loop iteration. -/
structure IterResult where
  state : PollState
  events : List Event
  outcome : IterOutcome

/-- One full iteration of `main`'s loop: the `try` block, and on error
the `except` branch, which formats `failureHeader ++ description` and
attempts delivery without any deduplication check and without touching
`sent_message`. -/
def loop_iter (st : PollState) (inp : IterInput) : IterResult :=
  let r := runTry st inp
  match r.err with
  | none => ⟨r.state, r.events, .ok⟩
  | some e =>
    let msg := failureHeader ++ e.description
    match inp.sendR r.attempts with
    | none => ⟨r.state, r.events ++ [.send msg], .caught⟩
    | some cause => ⟨r.state, r.events ++ [.send msg], .crashed (.telegramError cause)⟩

/-- Result of running the loop over a list of iteration inputs:
final state, concatenated event trace, and the exception that escaped
the loop if an iteration crashed (ending the run early). -/
structure RunResult where
  state : PollState
  events : List Event
  crash : Option HwError

/-- Run the loop over successive iteration inputs, stopping early only
when an iteration's failure notification itself raises. -/
def run_loop (st : PollState) : List IterInput → RunResult
  | [] => ⟨st, [], none⟩
  | inp :: rest =>
    let r := loop_iter st inp
    match r.outcome with
    | .crashed e => ⟨r.state, r.events, some e⟩
    | _ =>
      let rr := run_loop r.state rest
      ⟨rr.state, r.events ++ rr.events, rr.crash⟩

/-- Environment credentials as read by `os.getenv`: absent (`None`) or
a string. -/
structure Env where
  practicum_token : Option String
  telegram_token : Option String
  telegram_chat_id : Option String

/-- Python truthiness of an `os.getenv` result. -/
def truthyStr : Option String → Bool
  | none => false
  | some s => !s.isEmpty

/-- Embedding of `check_tokens` (homework.py lines 120–125):
`all((PRACTICUM_TOKEN, TELEGRAM_TOKEN, TELEGRAM_CHAT_ID))`. -/
def check_tokens (env : Env) : Bool :=
  truthyStr env.practicum_token && truthyStr env.telegram_token
    && truthyStr env.telegram_chat_id

/-- Message of the fatal startup `TokenError`. -/
def tokenErrorText : String := "Отсутствует обязательная переменная окружения"

/-- Embedding of `main` (homework.py lines 128–166): raise `TokenError`
before any network activity when a credential is missing, otherwise
start the loop from wall-clock time `now0` with no message sent yet. -/
def main_run (env : Env) (now0 : Int) (inputs : List IterInput) :
    Except HwError RunResult :=
  if check_tokens env then
    .ok (run_loop ⟨.int now0, none⟩ inputs)
  else
    .error (.tokenError tokenErrorText)

/-- Derived message of one iteration, when the iteration's fetch,
validation and parsing all succeed. -/
def iterMessage (st : PollState) (inp : IterInput) : Option String :=
  match get_api_answer st.current_timestamp inp.now inp.outcome with
  | .error _ => none
  | .ok response =>
    match check_response response with
    | .error _ => none
    | .ok hws =>
      match messageOf hws with
      | .error _ => none
      | .ok m => some m

section ExceptLemmas

variable {ε α β : Type}

/-- Bind on a success reduces to the continuation. -/
lemma exc_bind_ok (a : α) (f : α → Except ε β) :
    (Except.ok a : Except ε α) >>= f = f a := rfl

/-- Bind on an error short-circuits. -/
lemma exc_bind_err (e : ε) (f : α → Except ε β) :
    (Except.error e : Except ε α) >>= f = Except.error e := rfl

/-- The `throw` of the `Except` monad is `Except.error`. -/
lemma exc_throw (e : ε) : (throw e : Except ε α) = Except.error e := rfl

/-- The `pure` of the `Except` monad is `Except.ok`. -/
lemma exc_pure (a : α) : (pure a : Except ε α) = Except.ok a := rfl

end ExceptLemmas

/-- C3: `check_response` checks, in order: (1) the response is a dict,
else the not-a-dict `TypeError` (the spec's `ShapeError`); (2) both
`current_date` and `homeworks` are present, else the missing-key
`KeyError` (the spec's `MissingKeyError`); (3) the `homeworks` value is
a list, else the shape `TypeError` (the spec's `ShapeError`); on
success it returns the `homeworks` list unchanged.  In particular `{}`
fails with the missing-key error, `{"homeworks": {}, "current_date": 1}`
fails with the shape error, and `{"homeworks": [], "current_date": 1}`
returns `[]`. -/
theorem check_response_spec :
    (∀ r : JSON, isDict r = false →
      check_response r = .error (.typeError msgNotDict)) ∧
    (∀ fs : List (String × JSON),
      (hasKey fs "current_date" && hasKey fs "homeworks") = false →
      check_response (.obj fs) = .error (.keyError msgMissingKeys)) ∧
    (∀ fs : List (String × JSON),
      hasKey fs "current_date" = true → hasKey fs "homeworks" = true →
      isList (dictGet fs "homeworks") = false →
      check_response (.obj fs) = .error (.typeError msgHomeworksShape)) ∧
    (∀ (fs : List (String × JSON)) (hs : List JSON),
      hasKey fs "current_date" = true → hasKey fs "homeworks" = true →
      dictGet fs "homeworks" = .list hs →
      check_response (.obj fs) = .ok hs) ∧
    check_response (.obj []) = .error (.keyError msgMissingKeys) ∧
    check_response (.obj [("homeworks", .obj []), ("current_date", .int 1)]) =
      .error (.typeError msgHomeworksShape) ∧
    check_response (.obj [("homeworks", .list []), ("current_date", .int 1)]) = .ok [] := by
  refine ⟨?_, ?_, ?_, ?_, rfl, rfl, rfl⟩
  · intro r h
    cases r <;> simp_all [check_response, isDict]
  · intro fs h
    cases hc : hasKey fs "current_date" <;> cases hh : hasKey fs "homeworks" <;>
      simp_all [check_response]
  · intro fs hc hh hl
    cases hd : dictGet fs "homeworks" <;> simp_all [check_response, isList]
  · intro fs hs hc hh hd
    simp [check_response, hc, hh, hd]

/-- Witness instantiating every hypothesis-bearing case of
`check_response_spec` at concrete responses. -/
theorem check_response_spec_witness :
    check_response (.str "x") = .error (.typeError msgNotDict) ∧
    check_response (.obj [("current_date", .int 1)]) = .error (.keyError msgMissingKeys) ∧
    check_response (.obj [("current_date", .int 1), ("homeworks", .null)]) =
      .error (.typeError msgHomeworksShape) ∧
    check_response (.obj [("current_date", .int 1), ("homeworks", .list [.int 7])]) =
      .ok [.int 7] :=
  ⟨check_response_spec.1 _ rfl,
   check_response_spec.2.1 _ rfl,
   check_response_spec.2.2.1 _ rfl rfl rfl,
   check_response_spec.2.2.2.1 _ _ rfl rfl rfl⟩

/-- C4: on a record carrying a string `homework_name` and a `status`
from the three-entry verdict table, `parse_status` returns exactly
`Изменился статус проверки работы "{name}". {verdict}` with the
table's verdict for that status; the result is a function of the two
fields alone.  On a non-empty list the loop derives its message from
the first element, and the one-element list
`[{"homework_name": "hw1", "status": "approved"}]` yields the exact
approved-verdict string. -/
theorem parse_status_known :
    (∀ (fs : List (String × JSON)) (name status verdict : String),
      List.lookup "homework_name" fs = some (.str name) →
      List.lookup "status" fs = some (.str status) →
      (status, verdict) ∈ HOMEWORK_STATUSES →
      parse_status (.obj fs) =
        .ok ("Изменился статус проверки работы \"" ++ name ++ "\". " ++ verdict)) ∧
    (∀ (h : JSON) (t : List JSON), messageOf (h :: t) = parse_status h) ∧
    messageOf [.obj [("homework_name", .str "hw1"), ("status", .str "approved")]] =
      .ok "Изменился статус проверки работы \"hw1\". Работа проверена: ревьюеру всё понравилось. Ура!" := by
  refine ⟨?_, fun h t => rfl, rfl⟩
  intro fs name status verdict hname hstatus hmem
  simp only [HOMEWORK_STATUSES, List.mem_cons, List.not_mem_nil, or_false,
    Prod.mk.injEq] at hmem
  rcases hmem with ⟨h1, h2⟩ | ⟨h1, h2⟩ | ⟨h1, h2⟩ <;> subst h1 <;> subst h2 <;>
    simp [parse_status, pyContains, hasKey, hname, pyGetAttr, dictGet, hstatus,
      statusIn, statusVerdict, HOMEWORK_STATUSES, List.lookup, exc_bind_ok,
      exc_bind_err, exc_throw, exc_pure, pyStr]

/-- Witness applying `parse_status_known` to a concrete record with the
`rejected` status. -/
theorem parse_status_known_witness :
    parse_status (.obj [("homework_name", .str "dz2"), ("status", .str "rejected")]) =
      .ok "Изменился статус проверки работы \"dz2\". Работа проверена: у ревьюера есть замечания." :=
  parse_status_known.1 _ "dz2" "rejected" _ rfl rfl
    (by simp [HOMEWORK_STATUSES])

/-- C5: on a record (a dict), `parse_status` first rejects a missing
`homework_name` with the no-such-homework `KeyError` (the spec's
`MissingFieldError`) regardless of the other fields, and otherwise
rejects a `status` that is absent or a hashable value outside the
three-entry table with the no-such-status `KeyError` (the spec's
`UnknownStatusError`); in particular the one-element list
`[{"homework_name": "hw1", "status": "bogus"}]` fails that way. -/
theorem parse_status_errors :
    (∀ fs : List (String × JSON), hasKey fs "homework_name" = false →
      parse_status (.obj fs) = .error (.keyError msgNoHomework)) ∧
    (∀ fs : List (String × JSON), hasKey fs "homework_name" = true →
      statusIn (dictGet fs "status") = .ok false →
      parse_status (.obj fs) = .error (.keyError msgNoStatus)) ∧
    messageOf [.obj [("homework_name", .str "hw1"), ("status", .str "bogus")]] =
      .error (.keyError msgNoStatus) := by
  refine ⟨?_, ?_, rfl⟩
  · intro fs h
    simp only [parse_status, pyContains, h, exc_bind_ok, exc_throw, Bool.not_false, if_true]
    rfl
  · intro fs h hs
    simp only [parse_status, pyContains, h, pyGetAttr, hs, exc_bind_ok, exc_throw,
      Bool.not_true, if_false, Bool.not_false, if_true]
    rfl

/-- Witness applying `parse_status_errors` to a record with no
`homework_name` and to a record whose `status` is absent. -/
theorem parse_status_errors_witness :
    parse_status (.obj [("status", .str "approved")]) = .error (.keyError msgNoHomework) ∧
    parse_status (.obj [("homework_name", .str "hw9")]) = .error (.keyError msgNoStatus) :=
  ⟨parse_status_errors.1 _ rfl, parse_status_errors.2.1 _ rfl rfl⟩

/-- C8: `get_api_answer` fails with a fetch-level error carrying the
underlying cause exactly when the transport raises, the status is not
200, or the 200 body fails to decode; on a 200 reply with a decodable
body it returns the parsed body.  The operation consumes a single HTTP
outcome, so no retry happens inside it. -/
theorem get_api_answer_spec :
    (∀ (ts : JSON) (now : Int) (msg : String),
      get_api_answer ts now (.netFail msg) = .error (.requestException msg)) ∧
    (∀ (ts : JSON) (now : Int) (status : Nat) (body : Except String JSON),
      status ≠ 200 →
      get_api_answer ts now (.reply status body) =
        .error (.requestException ("Запрос не удался: код ошибки " ++ toString status))) ∧
    (∀ (ts : JSON) (now : Int) (msg : String),
      get_api_answer ts now (.reply 200 (.error msg)) = .error (.jsonDecodeError msg)) ∧
    (∀ (ts : JSON) (now : Int) (v : JSON),
      get_api_answer ts now (.reply 200 (.ok v)) = .ok v) := by
  refine ⟨fun _ _ _ => rfl, ?_, fun _ _ _ => rfl, fun _ _ _ => rfl⟩
  intro ts now status body h
  simp [get_api_answer, h]

/-- Witness applying `get_api_answer_spec` to a 404 reply. -/
theorem get_api_answer_spec_witness :
    get_api_answer (.int 0) 0 (.reply 404 (.ok .null)) =
      .error (.requestException "Запрос не удался: код ошибки 404") :=
  get_api_answer_spec.2.1 (.int 0) 0 404 (.ok .null) (by decide)

/-- C9: for the empty homework list the loop derives the fixed
no-homework message; `messageOf` takes only the list, so the result is
the same constant string whatever the rest of the program state is. -/
theorem derive_empty_message :
    messageOf [] = .ok "В указанные даты домашних заданий не найдено" := rfl

/-- C7: when any of the three credentials is absent or the empty
string, `main_run` fails with the fatal `TokenError` — uniformly in
the iteration inputs, so before the loop starts and before any HTTP
request or delivery happens; when all three are truthy, the check
passes and polling starts from the initial state. -/
theorem startup_token_check :
    (∀ (env : Env) (now0 : Int) (inputs : List IterInput),
      (env.practicum_token = none ∨ env.practicum_token = some "" ∨
       env.telegram_token = none ∨ env.telegram_token = some "" ∨
       env.telegram_chat_id = none ∨ env.telegram_chat_id = some "") →
      main_run env now0 inputs = .error (.tokenError tokenErrorText)) ∧
    (∀ (env : Env) (now0 : Int) (inputs : List IterInput),
      truthyStr env.practicum_token = true →
      truthyStr env.telegram_token = true →
      truthyStr env.telegram_chat_id = true →
      main_run env now0 inputs = .ok (run_loop ⟨.int now0, none⟩ inputs)) := by
  have hemp : "".isEmpty = true := rfl
  constructor
  · intro env now0 inputs h
    rcases h with h | h | h | h | h | h <;>
      simp [main_run, check_tokens, truthyStr, h, hemp]
  · intro env now0 inputs h1 h2 h3
    simp [main_run, check_tokens, h1, h2, h3]

/-- Witness applying `startup_token_check` to an environment with an
empty bot token and to a fully configured environment. -/
theorem startup_token_check_witness :
    main_run ⟨some "p", some "", some "c"⟩ 7 [] = .error (.tokenError tokenErrorText) ∧
    main_run ⟨some "p", some "t", some "c"⟩ 7 [] = .ok (run_loop ⟨.int 7, none⟩ []) :=
  ⟨startup_token_check.1 ⟨some "p", some "", some "c"⟩ 7 []
     (Or.inr (Or.inr (Or.inr (Or.inl rfl)))),
   startup_token_check.2 ⟨some "p", some "t", some "c"⟩ 7 [] rfl rfl rfl⟩

/-- The `except` branch never changes the state, so an iteration's
final state is the state the `try` block left behind. -/
lemma loop_iter_state (st : PollState) (inp : IterInput) :
    (loop_iter st inp).state = (runTry st inp).state := by
  simp only [loop_iter]
  split
  · rfl
  · split <;> rfl

/-- Either the `try` block succeeds, or it leaves `sent_message`
untouched: the assignment to `sent_message` happens only after a
successful delivery, the block's final action. -/
lemma runTry_err_or_frame (st : PollState) (inp : IterInput) :
    (runTry st inp).err = none ∨
      (runTry st inp).state.sent_message = st.sent_message := by
  simp only [runTry]
  split
  · right; rfl
  · split
    · right; rfl
    · split
      · right; rfl
      · split
        · right; rfl
        · split
          · split
            · left; rfl
            · right; rfl
          · left; rfl

/-- When the `try` block raised, the iteration appends exactly one
delivery attempt of the formatted failure text, with no deduplication
check, and ends caught or crashed according to that delivery. -/
lemma loop_iter_err (st : PollState) (inp : IterInput) (e : HwError)
    (he : (runTry st inp).err = some e) :
    (loop_iter st inp).events =
      (runTry st inp).events ++ [.send (failureHeader ++ e.description)] ∧
    ((loop_iter st inp).outcome =
      match inp.sendR (runTry st inp).attempts with
      | none => .caught
      | some cause => .crashed (.telegramError cause)) := by
  simp only [loop_iter, he]
  cases hs : inp.sendR (runTry st inp).attempts <;> exact ⟨rfl, rfl⟩

/-- When the `try` block completed, the iteration is its result with
outcome `ok`. -/
lemma loop_iter_ok (st : PollState) (inp : IterInput)
    (he : (runTry st inp).err = none) :
    loop_iter st inp = ⟨(runTry st inp).state, (runTry st inp).events, .ok⟩ := by
  simp only [loop_iter, he]

/-- C10: an iteration whose `try` block raised always appends exactly
one delivery attempt carrying the formatted failure text — with no
comparison against `sent_message`, which the theorem never assumes
anything about — and leaves `sent_message` exactly as it was, so an
identical failure text is re-sent on every consecutive failing
iteration while success-path deduplication state is untouched. -/
theorem failure_notice_unconditional (st : PollState) (inp : IterInput) (e : HwError)
    (he : (runTry st inp).err = some e) :
    (loop_iter st inp).events =
      (runTry st inp).events ++ [.send (failureHeader ++ e.description)] ∧
    (loop_iter st inp).state.sent_message = st.sent_message := by
  refine ⟨(loop_iter_err st inp e he).1, ?_⟩
  rw [loop_iter_state]
  rcases runTry_err_or_frame st inp with h | h
  · rw [he] at h; cases h
  · exact h

/-- Witness applying `failure_notice_unconditional` to a failing fetch
from a state whose `sent_message` already equals the failure text: the
attempt happens anyway and the state keeps that value. -/
theorem failure_notice_unconditional_witness :
    (loop_iter ⟨.int 100, some (failureHeader ++ "boom")⟩
        ⟨.netFail "boom", 0, fun _ => none⟩).events =
      [.fetch (.int 100), .send (failureHeader ++ "boom")] ∧
    (loop_iter ⟨.int 100, some (failureHeader ++ "boom")⟩
        ⟨.netFail "boom", 0, fun _ => none⟩).state.sent_message =
      some (failureHeader ++ "boom") := by
  have h := failure_notice_unconditional ⟨.int 100, some (failureHeader ++ "boom")⟩
    ⟨.netFail "boom", 0, fun _ => none⟩ (.requestException "boom") rfl
  exact ⟨h.1, h.2⟩

/-- An iteration whose delivery attempts all succeed never lets an
exception escape the loop. -/
lemma loop_iter_no_crash (st : PollState) (inp : IterInput)
    (hs : ∀ k, inp.sendR k = none) :
    (loop_iter st inp).outcome = .ok ∨ (loop_iter st inp).outcome = .caught := by
  simp only [loop_iter]
  split
  · left; rfl
  · rw [hs]
    right; rfl

/-- A run all of whose delivery attempts succeed never crashes,
whatever the fetch outcomes are. -/
lemma run_loop_no_crash (inputs : List IterInput) :
    ∀ st : PollState, (∀ i ∈ inputs, ∀ k, i.sendR k = none) →
      (run_loop st inputs).crash = none := by
  induction inputs with
  | nil => intro st _; rfl
  | cons inp rest ih =>
    intro st h
    simp only [run_loop]
    rcases loop_iter_no_crash st inp (h inp (List.mem_cons_self _ _)) with ho | ho <;>
      rw [ho] <;>
      exact ih (loop_iter st inp).state (fun i hi k => h i (List.mem_cons_of_mem _ hi) k)

/-- C2 counterexample: when the fetch fails and the best-effort failure
notification itself fails, the exception escapes and the run stops
after the first of two iterations — the trace holds only the first
iteration's events and the run records an escaped `TelegramError`,
refuting "the process never terminates on its own ... regardless of
whether the best-effort failure notification itself fails". -/
theorem loop_crash_cex :
    (run_loop ⟨.int 100, none⟩
        [⟨.netFail "boom", 0, fun _ => some "tg down"⟩,
         ⟨.netFail "boom", 0, fun _ => some "tg down"⟩]).crash =
      some (.telegramError "tg down") ∧
    (run_loop ⟨.int 100, none⟩
        [⟨.netFail "boom", 0, fun _ => some "tg down"⟩,
         ⟨.netFail "boom", 0, fun _ => some "tg down"⟩]).events =
      [.fetch (.int 100), .send (failureHeader ++ "boom")] :=
  ⟨rfl, rfl⟩

/-- C2 as amended: every error the `try` block raises is caught at the
iteration boundary and reported by one delivery attempt of the generic
failure text embedding the error's description, after which the loop
continues with the remaining iterations — provided that best-effort
notification succeeds; in particular a run whose delivery attempts all
succeed never crashes, whatever errors its iterations raise. -/
theorem loop_error_handling (st : PollState) (inp : IterInput) (rest : List IterInput)
    (e : HwError)
    (he : (runTry st inp).err = some e)
    (hs : inp.sendR (runTry st inp).attempts = none) :
    (loop_iter st inp).outcome = .caught ∧
    (loop_iter st inp).events =
      (runTry st inp).events ++ [.send (failureHeader ++ e.description)] ∧
    (run_loop st (inp :: rest)).crash = (run_loop (loop_iter st inp).state rest).crash ∧
    (run_loop st (inp :: rest)).events =
      (loop_iter st inp).events ++ (run_loop (loop_iter st inp).state rest).events ∧
    (∀ inputs : List IterInput, (∀ i ∈ inputs, ∀ k, i.sendR k = none) →
      (run_loop st inputs).crash = none) := by
  have hout : (loop_iter st inp).outcome = .caught := by
    rw [(loop_iter_err st inp e he).2, hs]
  refine ⟨hout, (loop_iter_err st inp e he).1, ?_, ?_, ?_⟩
  · simp only [run_loop, hout]
  · simp only [run_loop, hout]
  · exact fun inputs h => run_loop_no_crash inputs st h

/-- Witness applying `loop_error_handling` to a failed fetch whose
failure notification succeeds. -/
theorem loop_error_handling_witness :
    (loop_iter ⟨.int 0, none⟩ ⟨.netFail "boom", 5, fun _ => none⟩).outcome = .caught ∧
    (loop_iter ⟨.int 0, none⟩ ⟨.netFail "boom", 5, fun _ => none⟩).events =
      [.fetch (.int 5), .send (failureHeader ++ "boom")] := by
  have h := loop_error_handling ⟨.int 0, none⟩ ⟨.netFail "boom", 5, fun _ => none⟩ []
    (.requestException "boom") rfl rfl
  exact ⟨h.1, by rw [h.2.1]; rfl⟩

/-- Whenever the fetch succeeds with a dict response, the `try` block
stores `response.get('current_date')` into `current_timestamp`
verbatim, on every later path of the iteration. -/
lemma runTry_obj_ts (st : PollState) (inp : IterInput) (fs : List (String × JSON))
    (hg : get_api_answer st.current_timestamp inp.now inp.outcome = .ok (.obj fs)) :
    (runTry st inp).state.current_timestamp = dictGet fs "current_date" := by
  simp only [runTry, hg, pyGetAttr]
  split
  · rfl
  · split
    · rfl
    · split
      · split <;> rfl
      · rfl

/-- C6 counterexample: a successful iteration stores whatever
`current_date` value the response carries — from `current_timestamp =
100`, the response `{"current_date": "oops", "homeworks": []}` leaves
a non-integer timestamp, and `{"current_date": 0, "homeworks": []}`
moves the timestamp backwards from 100 to 0, refuting both
"always an integer" and "advances forward only". -/
theorem timestamp_cex :
    (loop_iter ⟨.int 100, none⟩
        ⟨.reply 200 (.ok (.obj [("current_date", .str "oops"), ("homeworks", .list [])])),
         0, fun _ => none⟩).outcome = .ok ∧
    (loop_iter ⟨.int 100, none⟩
        ⟨.reply 200 (.ok (.obj [("current_date", .str "oops"), ("homeworks", .list [])])),
         0, fun _ => none⟩).state.current_timestamp = .str "oops" ∧
    (loop_iter ⟨.int 100, none⟩
        ⟨.reply 200 (.ok (.obj [("current_date", .int 0), ("homeworks", .list [])])),
         0, fun _ => none⟩).outcome = .ok ∧
    (loop_iter ⟨.int 100, none⟩
        ⟨.reply 200 (.ok (.obj [("current_date", .int 0), ("homeworks", .list [])])),
         0, fun _ => none⟩).state.current_timestamp = .int 0 :=
  ⟨rfl, rfl, rfl, rfl⟩

/-- C6 as amended: on every iteration whose fetch returns a dict
response, `current_timestamp` is assigned the response's
`current_date` value verbatim; the code enforces neither that the
stored value is an integer nor that it advances, but when the
response's `current_date` is an integer at least the previous integer
timestamp, the new value is that integer and does not decrease. -/
theorem timestamp_update (st : PollState) (inp : IterInput) (fs : List (String × JSON))
    (ho : inp.outcome = .reply 200 (.ok (.obj fs))) :
    (loop_iter st inp).state.current_timestamp = dictGet fs "current_date" ∧
    (∀ t t' : Int, st.current_timestamp = .int t → dictGet fs "current_date" = .int t' →
      t ≤ t' → (loop_iter st inp).state.current_timestamp = .int t' ∧ t ≤ t') := by
  have h1 : (loop_iter st inp).state.current_timestamp = dictGet fs "current_date" := by
    rw [loop_iter_state]
    exact runTry_obj_ts st inp fs (by rw [ho]; exact rfl)
  exact ⟨h1, fun t tq _ hd hle => ⟨by rw [h1, hd], hle⟩⟩

/-- Witness applying `timestamp_update` to a response that advances the
timestamp from 100 to 200. -/
theorem timestamp_update_witness :
    (loop_iter ⟨.int 100, none⟩
        ⟨.reply 200 (.ok (.obj [("current_date", .int 200), ("homeworks", .list [])])),
         0, fun _ => none⟩).state.current_timestamp = .int 200 ∧ (100 : Int) ≤ 200 :=
  (timestamp_update ⟨.int 100, none⟩
      ⟨.reply 200 (.ok (.obj [("current_date", .int 200), ("homeworks", .list [])])),
       0, fun _ => none⟩
      [("current_date", .int 200), ("homeworks", .list [])] rfl).2
    100 200 rfl rfl (by norm_num)

/-- Characterization of the `try` block on a valid response deriving
message `m`: when `m` is new it is delivered (one attempt) and
recorded; when it equals `sent_message` the block makes no delivery
attempt and changes nothing but the timestamp. -/
lemma runTry_valid (st : PollState) (inp : IterInput) (fs : List (String × JSON))
    (hws : List JSON) (m : String)
    (hg : get_api_answer st.current_timestamp inp.now inp.outcome = .ok (.obj fs))
    (hc : check_response (.obj fs) = .ok hws)
    (hm : messageOf hws = .ok m) :
    (st.sent_message ≠ some m → inp.sendR 0 = none →
      runTry st inp = ⟨⟨dictGet fs "current_date", some m⟩,
        [.fetch (requestTimestamp st.current_timestamp inp.now), .send m], 1, none⟩) ∧
    (st.sent_message = some m →
      runTry st inp = ⟨⟨dictGet fs "current_date", some m⟩,
        [.fetch (requestTimestamp st.current_timestamp inp.now)], 0, none⟩) := by
  simp only [runTry, hg, pyGetAttr, hc, hm]
  constructor
  · intro hne hs
    rw [if_pos (Ne.symm hne), hs]
    rfl
  · intro heq
    rw [if_neg (fun h => h heq.symm), heq]

/-- Iteration input used by the C1 counterexample: a successful fetch
of `{"current_date": 1, "homeworks": []}` with working delivery. -/
def dedupCexInput : IterInput :=
  ⟨.reply 200 (.ok (.obj [("current_date", .int 1), ("homeworks", .list [])])),
   0, fun _ => none⟩

/-- State after one such iteration from the loop's initial state with
wall-clock start 100: the no-homework message has been sent once. -/
def dedupCexS1 : PollState := (loop_iter ⟨.int 100, none⟩ dedupCexInput).state

/-- C1 counterexample: run three identical successful iterations from
the initial state.  The second and third iterations form a pair of
consecutive successful iterations deriving the same message, yet
together they deliver zero notifications (the first run iteration
already recorded the message), not the "exactly one" the claim
demands. -/
theorem dedup_pair_cex :
    iterMessage dedupCexS1 dedupCexInput = some noHomeworkMessage ∧
    iterMessage (loop_iter dedupCexS1 dedupCexInput).state dedupCexInput =
      some noHomeworkMessage ∧
    (loop_iter dedupCexS1 dedupCexInput).outcome = .ok ∧
    (loop_iter (loop_iter dedupCexS1 dedupCexInput).state dedupCexInput).outcome = .ok ∧
    sendCount (loop_iter dedupCexS1 dedupCexInput).events +
      sendCount (loop_iter (loop_iter dedupCexS1 dedupCexInput).state dedupCexInput).events
      = 0 :=
  ⟨rfl, rfl, rfl, rfl, rfl⟩

/-- C1 as amended: across a pair of consecutive successful iterations
deriving the same message `m`, the second iteration never delivers and
leaves `last_sent_message` unchanged at `m`; the pair delivers exactly
once — by the first iteration, which records `m` — when `m` differs
from `last_sent_message` at the pair's start, and zero times when it
already equals it. -/
theorem dedup_pair (st : PollState) (i1 i2 : IterInput)
    (fs1 fs2 : List (String × JSON)) (hws1 hws2 : List JSON) (m : String)
    (ho1 : i1.outcome = .reply 200 (.ok (.obj fs1)))
    (hc1 : check_response (.obj fs1) = .ok hws1)
    (hm1 : messageOf hws1 = .ok m)
    (hs1 : i1.sendR 0 = none)
    (ho2 : i2.outcome = .reply 200 (.ok (.obj fs2)))
    (hc2 : check_response (.obj fs2) = .ok hws2)
    (hm2 : messageOf hws2 = .ok m) :
    (loop_iter st i1).outcome = .ok ∧
    (loop_iter st i1).state.sent_message = some m ∧
    (loop_iter (loop_iter st i1).state i2).outcome = .ok ∧
    sendCount (loop_iter (loop_iter st i1).state i2).events = 0 ∧
    (loop_iter (loop_iter st i1).state i2).state.sent_message =
      (loop_iter st i1).state.sent_message ∧
    (st.sent_message ≠ some m → sendCount (loop_iter st i1).events = 1) ∧
    (st.sent_message = some m → sendCount (loop_iter st i1).events = 0) := by
  have hg1 : get_api_answer st.current_timestamp i1.now i1.outcome = .ok (.obj fs1) := by
    rw [ho1]; exact rfl
  have hv1 := runTry_valid st i1 fs1 hws1 m hg1 hc1 hm1
  have key : ∀ st' : PollState, st'.sent_message = some m →
      (loop_iter st' i2).outcome = .ok ∧
      sendCount (loop_iter st' i2).events = 0 ∧
      (loop_iter st' i2).state.sent_message = some m := by
    intro st' hsent
    have hg2 : get_api_answer st'.current_timestamp i2.now i2.outcome = .ok (.obj fs2) := by
      rw [ho2]; exact rfl
    have hr2 := (runTry_valid st' i2 fs2 hws2 m hg2 hc2 hm2).2 hsent
    have he2 : (runTry st' i2).err = none := by rw [hr2]
    have hL2 := loop_iter_ok st' i2 he2
    refine ⟨by rw [hL2], by rw [hL2, hr2]; rfl, by rw [hL2, hr2]⟩
  by_cases hcase : st.sent_message = some m
  · have hr1 := hv1.2 hcase
    have he1 : (runTry st i1).err = none := by rw [hr1]
    have hL1 := loop_iter_ok st i1 he1
    have hsent1 : (loop_iter st i1).state.sent_message = some m := by rw [hL1, hr1]
    obtain ⟨k1, k2, k3⟩ := key (loop_iter st i1).state hsent1
    exact ⟨by rw [hL1], hsent1, k1, k2, by rw [k3, hsent1],
      fun h => absurd hcase h, fun _ => by rw [hL1, hr1]; rfl⟩
  · have hr1 := hv1.1 hcase hs1
    have he1 : (runTry st i1).err = none := by rw [hr1]
    have hL1 := loop_iter_ok st i1 he1
    have hsent1 : (loop_iter st i1).state.sent_message = some m := by rw [hL1, hr1]
    obtain ⟨k1, k2, k3⟩ := key (loop_iter st i1).state hsent1
    exact ⟨by rw [hL1], hsent1, k1, k2, by rw [k3, hsent1],
      fun _ => by rw [hL1, hr1]; rfl, fun h => absurd h hcase⟩

/-- Witness applying `dedup_pair` to two identical valid empty-list
responses from the fresh initial state: the first iteration delivers
once, the second not at all. -/
theorem dedup_pair_witness :
    (loop_iter ⟨.int 100, none⟩
        ⟨.reply 200 (.ok (.obj [("current_date", .int 1), ("homeworks", .list [])])),
         0, fun _ => none⟩).outcome = .ok ∧
    sendCount (loop_iter ⟨.int 100, none⟩
        ⟨.reply 200 (.ok (.obj [("current_date", .int 1), ("homeworks", .list [])])),
         0, fun _ => none⟩).events = 1 ∧
    sendCount (loop_iter
        (loop_iter ⟨.int 100, none⟩
          ⟨.reply 200 (.ok (.obj [("current_date", .int 1), ("homeworks", .list [])])),
           0, fun _ => none⟩).state
        ⟨.reply 200 (.ok (.obj [("current_date", .int 1), ("homeworks", .list [])])),
         0, fun _ => none⟩).events = 0 := by
  have h := dedup_pair ⟨.int 100, none⟩
    ⟨.reply 200 (.ok (.obj [("current_date", .int 1), ("homeworks", .list [])])),
     0, fun _ => none⟩
    ⟨.reply 200 (.ok (.obj [("current_date", .int 1), ("homeworks", .list [])])),
     0, fun _ => none⟩
    [("current_date", .int 1), ("homeworks", .list [])]
    [("current_date", .int 1), ("homeworks", .list [])]
    [] [] noHomeworkMessage rfl rfl rfl rfl rfl rfl rfl
  exact ⟨h.1, h.2.2.2.2.2.1 (fun hx => Option.noConfusion hx), h.2.2.2.1⟩
